import Mathlib

/-!
# Verification of the Multilead MCP server (`src/server.py`)

Shallow embedding of the request gateway (`MultileadClient.request`),
URL joining, and the parameter/body marshalling of the tool operations
(`create_lead`, `update_lead`, `add_leads_to_campaign`,
`get_leads_from_campaign`, `get_leads_from_seat`,
`export_leads_from_campaign`, `get_statistics`, `get_tags_for_leads`,
and the two unimplemented CSV import tools), together with theorems
settling the specification claims about them.
-/

namespace Multilead

/-- JSON values, as decoded from / encoded into a response or request body. -/
inductive Json where
  | null : Json
  | bool (b : Bool) : Json
  | str (s : String) : Json
  | num (n : Int) : Json
  | arr (xs : List Json) : Json
  | obj (fields : List (String × Json)) : Json

/-- Outcome of `response.json()`: the decoded value, or a decode failure
(`json.JSONDecodeError`, carrying its message). -/
inductive ParseOutcome where
  | ok (v : Json) : ParseOutcome
  | malformed (msg : String) : ParseOutcome

/-- What the transport layer (`httpx.AsyncClient.request`) produced for one
call of `MultileadClient.request`: an HTTP response (status plus what parsing
its body would yield), an `httpx.TimeoutException`, another
`httpx.RequestError` (DNS failure, refused connection, reset, ...), or some
other exception raised inside the `try` block. -/
inductive TransportOutcome where
  | response (status : Nat) (body : ParseOutcome) : TransportOutcome
  | timeout : TransportOutcome
  | requestError (msg : String) : TransportOutcome
  | raised (msg : String) : TransportOutcome

/-- The exceptions that can escape the `try` body of
`MultileadClient.request` before the `except` chain runs. -/
inductive PyExc where
  | toolError (msg : String) : PyExc
  | httpStatusError (status : Nat) (msg : String) : PyExc
  | timeoutExc : PyExc
  | requestErr (msg : String) : PyExc
  | other (msg : String) : PyExc

/-- Message raised for a 401 response (src/server.py lines 167-171). -/
def authFailedMsg : String :=
  "Authentication failed. Please check your MULTILEAD_API_KEY. " ++
  "Get your API key from: https://app.multilead.co/settings/api"

/-- Message raised for a 403 response (src/server.py lines 172-175). -/
def forbiddenMsg : String :=
  "Access forbidden. Your API key may not have permission for this resource."

/-- Message raised for a 404 response (src/server.py lines 176-177). -/
def notFoundMsg (endpoint : String) : String :=
  "Resource not found: " ++ endpoint

/-- Message raised for a 429 response (src/server.py lines 178-181). -/
def rateLimitMsg : String :=
  "Rate limit exceeded. Please wait before making more requests."

/-- Message raised for a >= 500 response (src/server.py lines 182-186). -/
def serverErrorMsg (status : Nat) : String :=
  "Multilead API server error (" ++ toString status ++ "). Please try again later."

/-- Message of the `httpx.HTTPStatusError` raised by
`response.raise_for_status()` on a non-2xx status (library behavior). -/
def httpStatusErrorMsg (status : Nat) : String :=
  "HTTP status error " ++ toString status

/-- The synthetic payload returned for a 204 response
(src/server.py line 192). -/
def noContentPayload : Json :=
  .obj [("success", .bool true), ("message", .str "Operation completed successfully")]

/-- Is `status` a 2xx success status (httpx `response.is_success`)? -/
def isSuccessStatus (status : Nat) : Bool :=
  200 ≤ status && status ≤ 299

/-- The `try` body of `MultileadClient.request` (src/server.py lines
156-194): status-specific `ToolError`s are raised first, then
`raise_for_status` (an `httpx.HTTPStatusError` for any remaining non-2xx
status), then 204 yields the synthetic payload, and only then is the body
parsed as JSON. -/
def requestTryBody (endpoint : String) : TransportOutcome → Except PyExc Json
  | .response status body =>
    if status = 401 then .error (.toolError authFailedMsg)
    else if status = 403 then .error (.toolError forbiddenMsg)
    else if status = 404 then .error (.toolError (notFoundMsg endpoint))
    else if status = 429 then .error (.toolError rateLimitMsg)
    else if 500 ≤ status then .error (.toolError (serverErrorMsg status))
    else if !isSuccessStatus status then
      .error (.httpStatusError status (httpStatusErrorMsg status))
    else if status = 204 then .ok noContentPayload
    else match body with
      | .ok v => .ok v
      | .malformed msg => .error (.other msg)
  | .timeout => .error .timeoutExc
  | .requestError msg => .error (.requestErr msg)
  | .raised msg => .error (.other msg)

/-- Message raised on `httpx.TimeoutException`
(src/server.py lines 196-200); `timeout` is the configured timeout. -/
def timeoutMsg (timeout : Nat) : String :=
  "Request timed out after " ++ toString timeout ++ " seconds. " ++
  "Try increasing MULTILEAD_TIMEOUT in your .env file."

/-- Message raised on `httpx.RequestError` (src/server.py line 202). -/
def networkErrorMsg (msg : String) : String :=
  "Network error while connecting to Multilead API: " ++ msg

/-- Message raised for any other non-`ToolError` exception
(src/server.py line 206). -/
def unexpectedErrorMsg (msg : String) : String :=
  "Unexpected error: " ++ msg

/-- The `except` chain of `MultileadClient.request` (src/server.py lines
196-206): timeouts, then other transport errors, then the catch-all that
re-raises `ToolError`s unchanged and wraps everything else. The result is
always the message of a `ToolError`. -/
def handleExc (timeout : Nat) : PyExc → String
  | .timeoutExc => timeoutMsg timeout
  | .requestErr msg => networkErrorMsg msg
  | .toolError msg => msg
  | .httpStatusError _ msg => unexpectedErrorMsg msg
  | .other msg => unexpectedErrorMsg msg

/-- `MultileadClient.request` as a whole: the `try` body followed by the
`except` chain. An `Except.error` is a raised `ToolError` with the given
message; an `Except.ok` is the returned JSON value. -/
def request (timeout : Nat) (endpoint : String) (t : TransportOutcome) :
    Except String Json :=
  match requestTryBody endpoint t with
  | .ok v => .ok v
  | .error e => .error (handleExc timeout e)

/-! ## URL joining (src/server.py lines 124 and 154) -/

/-- Python `s.rstrip("/")`: remove all trailing `'/'` characters.
Applied to the base URL in `MultileadClient.__init__` (line 124). -/
def rstripSlash (s : String) : String :=
  ⟨(s.data.reverse.dropWhile (fun c => c = '/')).reverse⟩

/-- Python `s.lstrip("/")`: remove all leading `'/'` characters.
Applied to the endpoint in `MultileadClient.request` (line 154). -/
def lstripSlash (s : String) : String :=
  ⟨s.data.dropWhile (fun c => c = '/')⟩

/-- `url = f"{self.base_url}/{endpoint.lstrip('/')}"` with
`self.base_url = config.base_url.rstrip("/")`. -/
def buildUrl (base endpoint : String) : String :=
  rstripSlash base ++ "/" ++ lstripSlash endpoint

/-! ## Query-parameter values and tool operations -/

/-- A value placed in the `params` dictionary handed to the transport: a
string, an integer, or a raw Python list of integers (which httpx would
encode as repeated query keys). -/
inductive QVal where
  | s (v : String) : QVal
  | i (n : Int) : QVal
  | l (ns : List Int) : QVal
deriving DecidableEq

/-- The request a tool operation hands to the gateway: method, endpoint
path, query parameters, and JSON body, in the order Python inserts them. -/
structure ApiCall where
  method : String
  path : String
  params : List (String × QVal)
  body : List (String × Json)

/-- Python `str(b).lower()` for a bool, as used for boolean filters. -/
def pyBoolStr (b : Bool) : String :=
  if b then "true" else "false"

/-- Python `f"[{','.join(map(str, xs))}]"`: the bracketed, comma-joined
serialization of an integer list. -/
def bracketList (xs : List Int) : String :=
  "[" ++ String.intercalate "," (xs.map toString) ++ "]"

/-- `if x: params[name] = x` for an optional string argument: Python
truthiness, so `None` and `""` are both skipped. -/
def strSeg (name : String) : Option String → List (String × QVal)
  | some v => if v = "" then [] else [(name, .s v)]
  | none => []

/-- `if x is not None: params[name] = str(x).lower()` for an optional
boolean argument. -/
def boolSeg (name : String) : Option Bool → List (String × QVal)
  | some b => [(name, .s (pyBoolStr b))]
  | none => []

/-- `if x: params[name] = f"[{','.join(map(str, x))}]"` for an optional
integer-list filter: Python truthiness, so `None` and `[]` are both
skipped, and a non-empty list is bracket-serialized. -/
def listSeg (name : String) : Option (List Int) → List (String × QVal)
  | some xs => if xs.isEmpty then [] else [(name, .s (bracketList xs))]
  | none => []

/-- `if x: params[name] = x` for an optional integer argument: Python
truthiness, so `None` and `0` are both skipped. -/
def intSeg (name : String) : Option Int → List (String × QVal)
  | some n => if n = 0 then [] else [(name, .i n)]
  | none => []

/-- The `params` dictionary built by `get_leads_from_campaign`
(src/server.py lines 918-951), in insertion order. -/
def getLeadsFromCampaignParams (search : Option String)
    (filterByVerifiedEmails filterByNotVerifiedEmails : Option Bool)
    (filterByStatus filterByConnectionDegree filterByCurrentStep : Option (List Int))
    (filterByName filterByCompany filterByOccupation filterByHeadline : Option String)
    (filterByOutOfOffice : Option Bool)
    (filterByStepChangeTimestamp : Option Int)
    (filterBySelectedLeads : Option (List Int))
    (limit offset : Int) : List (String × QVal) :=
  [("limit", .i limit), ("offset", .i offset)]
  ++ strSeg "search" search
  ++ boolSeg "filterByVerifiedEmails" filterByVerifiedEmails
  ++ boolSeg "filterByNotVerifiedEmails" filterByNotVerifiedEmails
  ++ listSeg "filterByStatus" filterByStatus
  ++ listSeg "filterByConnectionDegree" filterByConnectionDegree
  ++ listSeg "filterByCurrentStep" filterByCurrentStep
  ++ strSeg "filterByName" filterByName
  ++ strSeg "filterByCompany" filterByCompany
  ++ strSeg "filterByOccupation" filterByOccupation
  ++ strSeg "filterByHeadline" filterByHeadline
  ++ boolSeg "filterByOutOfOffice" filterByOutOfOffice
  ++ intSeg "filterByStepChangeTimestamp" filterByStepChangeTimestamp
  ++ listSeg "filterBySelectedLeads" filterBySelectedLeads

/-- The `params` dictionary built by `get_leads_from_seat`
(src/server.py lines 1100-1129); same shape as the campaign variant but
with no `filterByCurrentStep` filter. -/
def getLeadsFromSeatParams (search : Option String)
    (filterByVerifiedEmails filterByNotVerifiedEmails : Option Bool)
    (filterByStatus filterByConnectionDegree : Option (List Int))
    (filterByName filterByCompany filterByOccupation filterByHeadline : Option String)
    (filterByOutOfOffice : Option Bool)
    (filterByStepChangeTimestamp : Option Int)
    (filterBySelectedLeads : Option (List Int))
    (limit offset : Int) : List (String × QVal) :=
  [("limit", .i limit), ("offset", .i offset)]
  ++ strSeg "search" search
  ++ boolSeg "filterByVerifiedEmails" filterByVerifiedEmails
  ++ boolSeg "filterByNotVerifiedEmails" filterByNotVerifiedEmails
  ++ listSeg "filterByStatus" filterByStatus
  ++ listSeg "filterByConnectionDegree" filterByConnectionDegree
  ++ strSeg "filterByName" filterByName
  ++ strSeg "filterByCompany" filterByCompany
  ++ strSeg "filterByOccupation" filterByOccupation
  ++ strSeg "filterByHeadline" filterByHeadline
  ++ boolSeg "filterByOutOfOffice" filterByOutOfOffice
  ++ intSeg "filterByStepChangeTimestamp" filterByStepChangeTimestamp
  ++ listSeg "filterBySelectedLeads" filterBySelectedLeads

/-- The `params` dictionary built by `export_leads_from_campaign`
(src/server.py lines 1216-1249): no limit/offset, and the selected-leads
filter is inserted right after the current-step filter. -/
def exportLeadsFromCampaignParams (search : Option String)
    (filterByVerifiedEmails filterByNotVerifiedEmails : Option Bool)
    (filterByStatus filterByConnectionDegree filterByCurrentStep
      filterBySelectedLeads : Option (List Int))
    (filterByName filterByCompany filterByOccupation filterByHeadline : Option String)
    (filterByOutOfOffice : Option Bool)
    (filterByStepChangeTimestamp : Option Int) : List (String × QVal) :=
  strSeg "search" search
  ++ boolSeg "filterByVerifiedEmails" filterByVerifiedEmails
  ++ boolSeg "filterByNotVerifiedEmails" filterByNotVerifiedEmails
  ++ listSeg "filterByStatus" filterByStatus
  ++ listSeg "filterByConnectionDegree" filterByConnectionDegree
  ++ listSeg "filterByCurrentStep" filterByCurrentStep
  ++ listSeg "filterBySelectedLeads" filterBySelectedLeads
  ++ strSeg "filterByName" filterByName
  ++ strSeg "filterByCompany" filterByCompany
  ++ strSeg "filterByOccupation" filterByOccupation
  ++ strSeg "filterByHeadline" filterByHeadline
  ++ boolSeg "filterByOutOfOffice" filterByOutOfOffice
  ++ intSeg "filterByStepChangeTimestamp" filterByStepChangeTimestamp

/-- The `params` dictionary built by `get_statistics` (src/server.py lines
1481-1489): `curves` is stored as the raw Python list, not serialized to
the bracketed textual form, and `campaignId` is added when not `None`. -/
def getStatisticsParams (fromTs toTs : Int) (curves : List Int)
    (timeZone : String) (campaignId : Option Int) : List (String × QVal) :=
  [("from", .i fromTs), ("to", .i toTs), ("curves", .l curves),
   ("timeZone", .s timeZone)]
  ++ (match campaignId with
      | some c => [("campaignId", .i c)]
      | none => [])

/-- The `params` dictionary built by `get_tags_for_leads`
(src/server.py line 737): lead IDs joined with commas inside brackets. -/
def getTagsForLeadsParams (leadIds : List String) : List (String × QVal) :=
  [("leadIds", .s ("[" ++ String.intercalate "," leadIds ++ "]"))]

/-! ## Request bodies of the lead CRUD operations -/

/-- `{k: v for k, v in d.items() if v is not None}`: keep the entries whose
value is present. -/
def dropNone (entries : List (String × Option Json)) : List (String × Json) :=
  entries.filterMap (fun kv => kv.2.map (fun v => (kv.1, v)))

/-- The `lead_data` body built by `create_lead` (src/server.py lines
452-464): `tags` and `custom_fields` are defaulted with `or []` / `or {}`
before `None` values are removed, so those two keys always survive. -/
def createLeadData (email : String)
    (firstName lastName company title phone : Option String)
    (tags : Option (List String))
    (customFields : Option (List (String × Json))) : List (String × Json) :=
  dropNone
    [("email", some (.str email)),
     ("first_name", firstName.map .str),
     ("last_name", lastName.map .str),
     ("company", company.map .str),
     ("title", title.map .str),
     ("phone", phone.map .str),
     ("tags", some (.arr ((tags.getD []).map .str))),
     ("custom_fields", some (.obj (customFields.getD [])))]

/-- `create_lead` (src/server.py lines 425-467): build the body and call
the gateway with `POST /v1/leads`. -/
def create_lead (email : String)
    (firstName lastName company title phone : Option String)
    (tags : Option (List String))
    (customFields : Option (List (String × Json))) : Except String ApiCall :=
  .ok { method := "POST", path := "/v1/leads", params := [],
        body := createLeadData email firstName lastName company title phone
          tags customFields }

/-- The `update_data` body built by `update_lead` (src/server.py lines
561-573): the eight optional fields with `None` values removed (an
`is not None` test, so empty strings and empty lists are kept). -/
def updateLeadData (email firstName lastName company title phone : Option String)
    (tags : Option (List String))
    (customFields : Option (List (String × Json))) : List (String × Json) :=
  dropNone
    [("email", email.map .str),
     ("first_name", firstName.map .str),
     ("last_name", lastName.map .str),
     ("company", company.map .str),
     ("title", title.map .str),
     ("phone", phone.map .str),
     ("tags", tags.map (fun xs => .arr (xs.map .str))),
     ("custom_fields", customFields.map .obj)]

/-- `update_lead` (src/server.py lines 530-579): raise a `ToolError` when
no field survives the `None` filter, otherwise call the gateway with
`PUT /v1/leads/{lead_id}`. An `Except.error` means the gateway is never
invoked. -/
def update_lead (leadId : String)
    (email firstName lastName company title phone : Option String)
    (tags : Option (List String))
    (customFields : Option (List (String × Json))) : Except String ApiCall :=
  let updateData := updateLeadData email firstName lastName company title phone
    tags customFields
  if updateData.isEmpty then
    .error "At least one field must be provided to update"
  else
    .ok { method := "PUT", path := "/v1/leads/" ++ leadId, params := [],
          body := updateData }

/-- Python truthiness of an optional string (`if not profile_url`):
`None` and `""` are falsy. -/
def pyTruthyStr : Option String → Bool
  | some v => v ≠ ""
  | none => false

/-- Python truthiness of an optional dict (`if custom_fields`):
`None` and `{}` are falsy. -/
def pyTruthyDict : Option (List (String × Json)) → Bool
  | some d => !d.isEmpty
  | none => false

/-- Python `dict.update`: existing keys are overwritten in place, new keys
are appended in order. -/
def dictUpdate (d u : List (String × Json)) : List (String × Json) :=
  d.map (fun kv =>
    match u.find? (fun kv2 => kv2.1 = kv.1) with
    | some kv2 => (kv.1, kv2.2)
    | none => kv)
  ++ u.filter (fun kv2 => !d.any (fun kv => kv.1 = kv2.1))

/-- `add_leads_to_campaign` (src/server.py lines 606-650): raise a
`ToolError` when neither `profile_url` nor `email` is truthy (a Python
truthiness test, so empty strings count as absent); otherwise assemble the
body from the truthy fields, merge in `custom_fields`, and call the gateway
with `POST /campaign/{campaign_id}/leads`. An `Except.error` means the
gateway is never invoked. -/
def add_leads_to_campaign (campaignId : String)
    (profileUrl email : Option String)
    (customFields : Option (List (String × Json))) : Except String ApiCall :=
  if !pyTruthyStr profileUrl && !pyTruthyStr email then
    .error "Either profile_url or email must be provided"
  else
    let leadData :=
      (if pyTruthyStr profileUrl then [("profileUrl", Json.str (profileUrl.getD ""))] else [])
      ++ (if pyTruthyStr email then [("email", Json.str (email.getD ""))] else [])
    let leadData :=
      if pyTruthyDict customFields then dictUpdate leadData (customFields.getD [])
      else leadData
    .ok { method := "POST", path := "/campaign/" ++ campaignId ++ "/leads",
          params := [], body := leadData }

/-- The fixed guidance message of `import_keywords_to_global_blacklist_csv`
(src/server.py lines 1662-1666). -/
def globalCsvGuidanceMsg : String :=
  "CSV file upload is not yet implemented in this MCP server. " ++
  "Please use the add_keywords_to_global_blacklist tool with a list of keywords instead, " ++
  "or upload the CSV file directly via the Multilead web interface."

/-- `import_keywords_to_global_blacklist_csv` (src/server.py lines
1637-1666): unconditionally raises a `ToolError` with the guidance
message; the gateway is never invoked. -/
def import_keywords_to_global_blacklist_csv (teamId userId csvFilePath
    keywordType comparisonType : String) : Except String ApiCall :=
  .error globalCsvGuidanceMsg

/-- The fixed guidance message of `import_keywords_to_blacklist_csv`
(src/server.py lines 1732-1736). -/
def seatCsvGuidanceMsg : String :=
  "CSV file upload is not yet implemented in this MCP server. " ++
  "Please use the add_keywords_to_blacklist tool with a list of keywords instead, " ++
  "or upload the CSV file directly via the Multilead web interface."

/-- `import_keywords_to_blacklist_csv` (src/server.py lines 1707-1736):
unconditionally raises a `ToolError` with the guidance message; the
gateway is never invoked. -/
def import_keywords_to_blacklist_csv (userId accountId csvFilePath
    keywordType comparisonType : String) : Except String ApiCall :=
  .error seatCsvGuidanceMsg

/-! ## Helper lemmas -/

/-- The head of a list stripped of its leading slashes is not a slash. -/
lemma head_dropWhile_slash_ne (l : List Char) :
    (l.dropWhile (fun c => c = '/')).head? ≠ some '/' := by
  induction l with
  | nil => simp
  | cons a t ih =>
    by_cases h : a = '/'
    · simpa [List.dropWhile_cons, h] using ih
    · simp [List.dropWhile_cons, h]

end Multilead

namespace Multilead

/-- C1. For every non-2xx response, `MultileadClient.request` never parses
the body (its result is independent of the body), and it raises the
classified failure determined by the status: 401 the authentication
message naming the API key, 403 the permission message, 404 a message
containing the requested endpoint path, 429 the rate-limit message, any
status >= 500 the upstream-server-error message containing the numeric
status, and any other non-2xx status the generic failure produced by
`raise_for_status` wrapped by the catch-all handler. -/
theorem request_status_mapping (timeout : Nat) (endpoint : String) (s : Nat)
    (b b' : ParseOutcome) (hs : ¬ (200 ≤ s ∧ s ≤ 299)) :
    request timeout endpoint (.response s b) = request timeout endpoint (.response s b')
    ∧ request timeout endpoint (.response 401 b) = .error authFailedMsg
    ∧ request timeout endpoint (.response 403 b) = .error forbiddenMsg
    ∧ request timeout endpoint (.response 404 b) = .error (notFoundMsg endpoint)
    ∧ notFoundMsg endpoint = "Resource not found: " ++ endpoint
    ∧ request timeout endpoint (.response 429 b) = .error rateLimitMsg
    ∧ (500 ≤ s → request timeout endpoint (.response s b) = .error (serverErrorMsg s))
    ∧ serverErrorMsg s =
        "Multilead API server error (" ++ toString s ++ "). Please try again later."
    ∧ (s ≠ 401 → s ≠ 403 → s ≠ 404 → s ≠ 429 → s < 500 →
        request timeout endpoint (.response s b) =
          .error (unexpectedErrorMsg (httpStatusErrorMsg s))) := by
  have hns : isSuccessStatus s = false := by
    simp only [isSuccessStatus, Bool.and_eq_false_iff, decide_eq_false_iff_not]
    omega
  refine ⟨?_, rfl, rfl, rfl, rfl, rfl, ?_, rfl, ?_⟩
  · simp only [request, requestTryBody, hns, Bool.not_false, if_true]
  · intro h5
    have h1 : s ≠ 401 := by omega
    have h2 : s ≠ 403 := by omega
    have h3 : s ≠ 404 := by omega
    have h4 : s ≠ 429 := by omega
    simp [request, requestTryBody, handleExc, h1, h2, h3, h4, h5]
  · intro h1 h2 h3 h4 h5
    have h5' : ¬ 500 ≤ s := by omega
    simp [request, requestTryBody, handleExc, h1, h2, h3, h4, h5', hns]

/-- Witness for C1, at the unlisted non-2xx status 418 with two different
bodies (one malformed): the hypothesis holds and the mapping applies. -/
theorem request_status_mapping_witness :
    (¬ ((200 : Nat) ≤ 418 ∧ (418 : Nat) ≤ 299))
    ∧ (request 30 "/leads/999" (.response 418 (.malformed "not json")) =
        request 30 "/leads/999" (.response 418 (.ok .null))
      ∧ request 30 "/leads/999" (.response 401 (.malformed "not json")) = .error authFailedMsg
      ∧ request 30 "/leads/999" (.response 403 (.malformed "not json")) = .error forbiddenMsg
      ∧ request 30 "/leads/999" (.response 404 (.malformed "not json")) =
          .error (notFoundMsg "/leads/999")
      ∧ notFoundMsg "/leads/999" = "Resource not found: " ++ "/leads/999"
      ∧ request 30 "/leads/999" (.response 429 (.malformed "not json")) = .error rateLimitMsg
      ∧ ((500 : Nat) ≤ 418 →
          request 30 "/leads/999" (.response 418 (.malformed "not json")) =
            .error (serverErrorMsg 418))
      ∧ serverErrorMsg 418 =
          "Multilead API server error (" ++ toString (418 : Nat) ++ "). Please try again later."
      ∧ ((418 : Nat) ≠ 401 → (418 : Nat) ≠ 403 → (418 : Nat) ≠ 404 → (418 : Nat) ≠ 429 →
          (418 : Nat) < 500 →
          request 30 "/leads/999" (.response 418 (.malformed "not json")) =
            .error (unexpectedErrorMsg (httpStatusErrorMsg 418)))) :=
  ⟨by decide,
   request_status_mapping 30 "/leads/999" 418 (.malformed "not json") (.ok .null) (by decide)⟩

/-- C2. Transport failures are classified: a timeout raises the timeout
message stating the configured timeout value (and yields no result), any
other transport error raises the network-error message wrapping the
underlying message, any other exception is wrapped as an unexpected
error, an already-raised `ToolError` passes through the handler
unchanged, and every transport outcome produces either a value or a
classified failure message — no raw exception escapes. -/
theorem request_transport_mapping (timeout : Nat) (endpoint : String) (m : String) :
    request timeout endpoint .timeout = .error (timeoutMsg timeout)
    ∧ timeoutMsg timeout =
        "Request timed out after " ++ toString timeout ++ " seconds. " ++
        "Try increasing MULTILEAD_TIMEOUT in your .env file."
    ∧ request timeout endpoint (.requestError m) = .error (networkErrorMsg m)
    ∧ networkErrorMsg m = "Network error while connecting to Multilead API: " ++ m
    ∧ request timeout endpoint (.raised m) = .error (unexpectedErrorMsg m)
    ∧ handleExc timeout (.toolError m) = m
    ∧ ∀ t : TransportOutcome,
        (∃ v, request timeout endpoint t = .ok v) ∨
        (∃ msg, request timeout endpoint t = .error msg) := by
  refine ⟨rfl, rfl, rfl, rfl, rfl, rfl, ?_⟩
  intro t
  cases h : request timeout endpoint t with
  | ok v => exact .inl ⟨v, rfl⟩
  | error msg => exact .inr ⟨msg, rfl⟩

/-- C3. Every 2xx response other than 204 whose body decodes to a JSON
value makes `MultileadClient.request` return exactly that decoded value,
for every possible JSON value — no validation, filtering, or
normalization. -/
theorem request_2xx_returns_body (timeout : Nat) (endpoint : String) (s : Nat)
    (v : Json) (h2 : 200 ≤ s) (h2' : s ≤ 299) (h4 : s ≠ 204) :
    request timeout endpoint (.response s (.ok v)) = .ok v := by
  have h1 : s ≠ 401 := by omega
  have h1' : s ≠ 403 := by omega
  have h1'' : s ≠ 404 := by omega
  have h1''' : s ≠ 429 := by omega
  have h5 : ¬ 500 ≤ s := by omega
  have hsucc : isSuccessStatus s = true := by
    simp only [isSuccessStatus, Bool.and_eq_true, decide_eq_true_eq]
    omega
  simp [request, requestTryBody, h1, h1', h1'', h1''', h4, h5, hsucc]

/-- Witness for C3, the spec's example scenario: a mocked 200 response with
body `{"id": "42", "email": "a@b.com"}` is returned verbatim. -/
theorem request_2xx_returns_body_witness :
    ((200 : Nat) ≤ 200 ∧ (200 : Nat) ≤ 299 ∧ (200 : Nat) ≠ 204)
    ∧ request 30 "/leads/42"
        (.response 200 (.ok (.obj [("id", .str "42"), ("email", .str "a@b.com")]))) =
      .ok (.obj [("id", .str "42"), ("email", .str "a@b.com")]) :=
  ⟨by decide,
   request_2xx_returns_body 30 "/leads/42" 200
     (.obj [("id", .str "42"), ("email", .str "a@b.com")])
     (by decide) (by decide) (by decide)⟩

/-- C4. A 204 response makes `MultileadClient.request` return the synthetic
success payload (whose `success` field is `true`) for every body outcome —
in particular the (empty) body is never parsed, since the result is the
same even for a malformed body. -/
theorem request_204_synthetic_payload (timeout : Nat) (endpoint : String)
    (b : ParseOutcome) :
    request timeout endpoint (.response 204 b) = .ok noContentPayload
    ∧ noContentPayload =
        .obj [("success", .bool true), ("message", .str "Operation completed successfully")] :=
  ⟨rfl, rfl⟩

/-- C5. URL joining: the URL built by `MultileadClient.request` is
invariant under a leading slash on the path and a trailing slash on the
base (so `join(base, "/x")`, `join(base+"/", "x")` and `join(base, "x")`
coincide), and the two pieces around the single inserted `"/"` never end,
respectively start, with a slash — the base and path are joined with
exactly one separating slash. -/
theorem buildUrl_slash_normalization (base p : String) :
    buildUrl base ("/" ++ p) = buildUrl base p
    ∧ buildUrl (base ++ "/") p = buildUrl base p
    ∧ (rstripSlash base).data.getLast? ≠ some '/'
    ∧ (lstripSlash p).data.head? ≠ some '/' := by
  refine ⟨?_, ?_, ?_, ?_⟩
  · simp [buildUrl, lstripSlash, String.data_append, List.dropWhile_cons]
  · simp [buildUrl, rstripSlash, String.data_append, List.dropWhile_cons]
  · simp only [rstripSlash, List.getLast?_reverse]
    exact head_dropWhile_slash_ne _
  · exact head_dropWhile_slash_ne _

/-- C6. Argument validation short-circuits before the gateway: calling
`add_leads_to_campaign` with both `profile_url` and `email` absent, or
`update_lead` with every optional field absent, raises a `ToolError`
(an `Except.error`, so no `ApiCall` reaches the gateway). -/
theorem validation_short_circuits (campaignId leadId : String)
    (customFields : Option (List (String × Json))) :
    add_leads_to_campaign campaignId none none customFields =
      .error "Either profile_url or email must be provided"
    ∧ update_lead leadId none none none none none none none none =
      .error "At least one field must be provided to update" :=
  ⟨rfl, rfl⟩

/-- C7. The two CSV file-import operations always fail with their fixed
guidance messages (each directing the caller to the list-based
alternative tool) and never produce an `ApiCall`, so the gateway is never
invoked. -/
theorem csv_imports_always_fail (teamId userId accountId csvFilePath
    keywordType comparisonType : String) :
    import_keywords_to_global_blacklist_csv teamId userId csvFilePath
      keywordType comparisonType = .error globalCsvGuidanceMsg
    ∧ import_keywords_to_blacklist_csv userId accountId csvFilePath
      keywordType comparisonType = .error seatCsvGuidanceMsg
    ∧ globalCsvGuidanceMsg =
        "CSV file upload is not yet implemented in this MCP server. " ++
        "Please use the add_keywords_to_global_blacklist tool with a list of keywords instead, " ++
        "or upload the CSV file directly via the Multilead web interface."
    ∧ seatCsvGuidanceMsg =
        "CSV file upload is not yet implemented in this MCP server. " ++
        "Please use the add_keywords_to_blacklist tool with a list of keywords instead, " ++
        "or upload the CSV file directly via the Multilead web interface." :=
  ⟨rfl, rfl, rfl, rfl⟩

end Multilead

namespace Multilead

/-- The key contributed to a body by one optional argument: present when
the argument is, absent otherwise. Used to state which keys survive the
`None` filter. -/
def okey {α : Type} (name : String) (o : Option α) : List String :=
  match o with
  | some _ => [name]
  | none => []

/-- `okey` only looks at presence, so mapping over the option does not
change it. -/
lemma okey_map {α β : Type} (name : String) (o : Option α) (g : α → β) :
    okey name (o.map g) = okey name o := by
  cases o <;> rfl

/-- Keys of `dropNone` over a cons cell: the head's key survives exactly
when its value is present. -/
lemma dropNone_cons_keys (name : String) (o : Option Json)
    (rest : List (String × Option Json)) :
    (dropNone ((name, o) :: rest)).map Prod.fst =
      okey name o ++ (dropNone rest).map Prod.fst := by
  cases o <;> simp [dropNone, okey]

/-- `dropNone` of the empty dictionary. -/
lemma dropNone_nil : dropNone [] = [] := rfl

/-- `okey` at a present value. -/
lemma okey_some {α : Type} (name : String) (x : α) : okey name (some x) = [name] := rfl

/-- `okey` at an absent value. -/
lemma okey_none {α : Type} (name : String) : okey name (none : Option α) = [] := rfl

/-- A value equal to the image of an option under a null-free map is not
null. -/
lemma ne_null_of_eq_map {α : Type} (v : Json) (o : Option α) (g : α → Json)
    (hg : ∀ a, g a ≠ .null) (h : some v = o.map g) : v ≠ .null := by
  cases o with
  | none => simp at h
  | some a =>
    simp only [Option.map_some', Option.some.injEq] at h
    subst h
    exact hg a

/-- A value equal to a present non-null value is not null. -/
lemma ne_null_of_eq_some (v w : Json) (hw : w ≠ .null) (h : some v = some w) :
    v ≠ .null := by
  simp only [Option.some.injEq] at h
  subst h
  exact hw

/-- Membership in `dropNone` comes from a present entry of the input. -/
lemma dropNone_mem (entries : List (String × Option Json)) (k : String) (v : Json)
    (h : (k, v) ∈ dropNone entries) : (k, some v) ∈ entries := by
  induction entries with
  | nil => simp [dropNone] at h
  | cons a t ih =>
    obtain ⟨n, o⟩ := a
    cases o with
    | none =>
      simp only [dropNone, List.filterMap_cons, Option.map_none'] at h
      exact List.mem_cons_of_mem _ (ih h)
    | some w =>
      simp only [dropNone, List.filterMap_cons, Option.map_some', List.mem_cons] at h
      rcases h with h | h
      · obtain ⟨rfl, rfl⟩ := Prod.mk.injEq .. ▸ h
        exact List.mem_cons_self _ _
      · exact List.mem_cons_of_mem _ (ih h)

/-- C8 counterexample: `create_lead` called with `tags` and
`custom_fields` left `None` still sends the body fields `"tags": []` and
`"custom_fields": {}` — substitute values appear in place of the omitted
arguments, so "omitted entirely, no substitute value" fails. -/
theorem create_lead_defaults_counterexample :
    create_lead "a@b.com" none none none none none none none =
      .ok { method := "POST", path := "/v1/leads", params := [],
            body := [("email", .str "a@b.com"), ("tags", .arr []),
                     ("custom_fields", .obj [])] } :=
  rfl

/-- C8 (amended). In `update_lead` every optional argument left `None` is
omitted from the body entirely, and in `create_lead` the five optional
string arguments are likewise omitted when `None`, while `tags` and
`custom_fields` are always sent (defaulting to `[]` and `{}`); no
top-level body value of either operation is ever JSON `null`. -/
theorem none_fields_never_sent (email' : String)
    (e f l c t p : Option String) (tg : Option (List String))
    (cf : Option (List (String × Json))) :
    (updateLeadData e f l c t p tg cf).map Prod.fst =
      okey "email" e ++ okey "first_name" f ++ okey "last_name" l ++
      okey "company" c ++ okey "title" t ++ okey "phone" p ++
      okey "tags" tg ++ okey "custom_fields" cf
    ∧ (createLeadData email' f l c t p tg cf).map Prod.fst =
      ["email"] ++ okey "first_name" f ++ okey "last_name" l ++
      okey "company" c ++ okey "title" t ++ okey "phone" p ++
      ["tags", "custom_fields"]
    ∧ (∀ k v, (k, v) ∈ updateLeadData e f l c t p tg cf → v ≠ .null)
    ∧ (∀ k v, (k, v) ∈ createLeadData email' f l c t p tg cf → v ≠ .null) := by
  refine ⟨?_, ?_, ?_, ?_⟩
  · simp [updateLeadData, dropNone_cons_keys, okey_map, dropNone_nil]
  · simp [createLeadData, dropNone_cons_keys, okey_map, okey_some, okey_none,
      dropNone_nil]
  · intro k v hm
    have h := dropNone_mem _ k v hm
    simp only [updateLeadData, List.mem_cons, List.not_mem_nil, or_false,
      Prod.mk.injEq] at h
    rcases h with ⟨_, hkv⟩ | ⟨_, hkv⟩ | ⟨_, hkv⟩ | ⟨_, hkv⟩ | ⟨_, hkv⟩ | ⟨_, hkv⟩ | ⟨_, hkv⟩ | ⟨_, hkv⟩ <;>
      exact ne_null_of_eq_map v _ _ (fun a => by simp) hkv
  · intro k v hm
    have h := dropNone_mem _ k v hm
    simp only [createLeadData, List.mem_cons, List.not_mem_nil, or_false,
      Prod.mk.injEq] at h
    rcases h with ⟨_, hkv⟩ | ⟨_, hkv⟩ | ⟨_, hkv⟩ | ⟨_, hkv⟩ | ⟨_, hkv⟩ | ⟨_, hkv⟩ | ⟨_, hkv⟩ | ⟨_, hkv⟩ <;>
      first
      | exact ne_null_of_eq_map v _ _ (fun a => by simp) hkv
      | exact ne_null_of_eq_some v _ (by simp) hkv

/-- C9 counterexample: `get_statistics` stores its list-valued `curves`
filter in the query mapping as the raw list (which the transport would
encode as repeated query keys), not as the bracketed comma-joined string
— so "every operation pre-serializes its list-valued query filters"
fails. -/
theorem get_statistics_raw_curves_counterexample :
    (getStatisticsParams 1730419200 1730764800 [3, 4, 6, 7] "UTC" none).lookup "curves"
      = some (QVal.l [3, 4, 6, 7])
    ∧ QVal.l [3, 4, 6, 7] ≠ QVal.s (bracketList [3, 4, 6, 7]) :=
  ⟨rfl, by decide⟩

/-- C9 (amended). The list-valued query filters of
`get_leads_from_campaign` (status, current step, selected leads) and the
lead IDs of `get_tags_for_leads` are sent as single bracketed,
comma-joined strings, but `get_statistics` sends its `curves` list as a
raw list value. -/
theorem list_filters_bracketed (search : Option String)
    (fbve fbnve : Option Bool) (fbcd : Option (List Int))
    (fbn fbc fbo fbh : Option String) (fboo : Option Bool)
    (fbsct : Option Int) (xs ys zs : List Int)
    (hxs : xs ≠ []) (hys : ys ≠ []) (hzs : zs ≠ [])
    (limit offset fromTs toTs : Int) (curves : List Int) (tz : String)
    (cid : Option Int) (leadIds : List String) :
    ("filterByStatus", QVal.s (bracketList xs)) ∈
      getLeadsFromCampaignParams search fbve fbnve (some xs) fbcd (some ys)
        fbn fbc fbo fbh fboo fbsct (some zs) limit offset
    ∧ ("filterByCurrentStep", QVal.s (bracketList ys)) ∈
      getLeadsFromCampaignParams search fbve fbnve (some xs) fbcd (some ys)
        fbn fbc fbo fbh fboo fbsct (some zs) limit offset
    ∧ ("filterBySelectedLeads", QVal.s (bracketList zs)) ∈
      getLeadsFromCampaignParams search fbve fbnve (some xs) fbcd (some ys)
        fbn fbc fbo fbh fboo fbsct (some zs) limit offset
    ∧ ("curves", QVal.l curves) ∈ getStatisticsParams fromTs toTs curves tz cid
    ∧ ("leadIds", QVal.s ("[" ++ String.intercalate "," leadIds ++ "]")) ∈
      getTagsForLeadsParams leadIds := by
  have hxs' : xs.isEmpty = false := by simpa [List.isEmpty_iff] using hxs
  have hys' : ys.isEmpty = false := by simpa [List.isEmpty_iff] using hys
  have hzs' : zs.isEmpty = false := by simpa [List.isEmpty_iff] using hzs
  refine ⟨?_, ?_, ?_, ?_, ?_⟩
  · simp [getLeadsFromCampaignParams, listSeg, hxs']
  · simp [getLeadsFromCampaignParams, listSeg, hys']
  · simp [getLeadsFromCampaignParams, listSeg, hzs']
  · cases cid <;> simp [getStatisticsParams]
  · simp [getTagsForLeadsParams]

/-- Witness for C9's amended theorem, at concrete non-empty filter lists
and concrete statistics arguments. -/
theorem list_filters_bracketed_witness :
    (([1] : List Int) ≠ [] ∧ ([2] : List Int) ≠ [] ∧ ([3] : List Int) ≠ [])
    ∧ (("filterByStatus", QVal.s (bracketList [1])) ∈
        getLeadsFromCampaignParams none none none (some [1]) none (some [2])
          none none none none none none (some [3]) 30 0
      ∧ ("filterByCurrentStep", QVal.s (bracketList [2])) ∈
        getLeadsFromCampaignParams none none none (some [1]) none (some [2])
          none none none none none none (some [3]) 30 0
      ∧ ("filterBySelectedLeads", QVal.s (bracketList [3])) ∈
        getLeadsFromCampaignParams none none none (some [1]) none (some [2])
          none none none none none none (some [3]) 30 0
      ∧ ("curves", QVal.l [3, 4, 6, 7]) ∈
        getStatisticsParams 1730419200 1730764800 [3, 4, 6, 7] "UTC" none
      ∧ ("leadIds", QVal.s ("[" ++ String.intercalate "," ["7", "8"] ++ "]")) ∈
        getTagsForLeadsParams ["7", "8"]) :=
  ⟨⟨by decide, by decide, by decide⟩,
   list_filters_bracketed none none none none none none none none none none
     [1] [2] [3] (by decide) (by decide) (by decide) 30 0 1730419200 1730764800
     [3, 4, 6, 7] "UTC" none ["7", "8"]⟩

/-- C10. In `get_leads_from_campaign`, `get_leads_from_seat` and
`export_leads_from_campaign`, a falsy but non-`None` filter value — a zero
step-change timestamp, an empty status / current-step / selected-leads
list, or an empty search string — produces exactly the same query
parameters as leaving the filter unsupplied (presence is tested by Python
truthiness), and in particular such a value never appears in the
parameters sent upstream. -/
theorem falsy_filters_omitted (search : Option String)
    (fbve fbnve : Option Bool)
    (fbs fbcd fbcs : Option (List Int))
    (fbn fbc fbo fbh : Option String) (fboo : Option Bool)
    (fbsct : Option Int) (fbsl : Option (List Int))
    (limit offset : Int) :
    getLeadsFromCampaignParams (some "") fbve fbnve fbs fbcd fbcs fbn fbc fbo
        fbh fboo fbsct fbsl limit offset =
      getLeadsFromCampaignParams none fbve fbnve fbs fbcd fbcs fbn fbc fbo
        fbh fboo fbsct fbsl limit offset
    ∧ getLeadsFromCampaignParams search fbve fbnve (some []) fbcd fbcs fbn fbc
        fbo fbh fboo fbsct fbsl limit offset =
      getLeadsFromCampaignParams search fbve fbnve none fbcd fbcs fbn fbc fbo
        fbh fboo fbsct fbsl limit offset
    ∧ getLeadsFromCampaignParams search fbve fbnve fbs fbcd (some []) fbn fbc
        fbo fbh fboo fbsct fbsl limit offset =
      getLeadsFromCampaignParams search fbve fbnve fbs fbcd none fbn fbc fbo
        fbh fboo fbsct fbsl limit offset
    ∧ getLeadsFromCampaignParams search fbve fbnve fbs fbcd fbcs fbn fbc fbo
        fbh fboo (some 0) fbsl limit offset =
      getLeadsFromCampaignParams search fbve fbnve fbs fbcd fbcs fbn fbc fbo
        fbh fboo none fbsl limit offset
    ∧ getLeadsFromCampaignParams search fbve fbnve fbs fbcd fbcs fbn fbc fbo
        fbh fboo fbsct (some []) limit offset =
      getLeadsFromCampaignParams search fbve fbnve fbs fbcd fbcs fbn fbc fbo
        fbh fboo fbsct none limit offset
    ∧ getLeadsFromSeatParams (some "") fbve fbnve fbs fbcd fbn fbc fbo fbh
        fboo fbsct fbsl limit offset =
      getLeadsFromSeatParams none fbve fbnve fbs fbcd fbn fbc fbo fbh fboo
        fbsct fbsl limit offset
    ∧ getLeadsFromSeatParams search fbve fbnve (some []) fbcd fbn fbc fbo fbh
        fboo fbsct fbsl limit offset =
      getLeadsFromSeatParams search fbve fbnve none fbcd fbn fbc fbo fbh fboo
        fbsct fbsl limit offset
    ∧ getLeadsFromSeatParams search fbve fbnve fbs fbcd fbn fbc fbo fbh fboo
        (some 0) fbsl limit offset =
      getLeadsFromSeatParams search fbve fbnve fbs fbcd fbn fbc fbo fbh fboo
        none fbsl limit offset
    ∧ getLeadsFromSeatParams search fbve fbnve fbs fbcd fbn fbc fbo fbh fboo
        fbsct (some []) limit offset =
      getLeadsFromSeatParams search fbve fbnve fbs fbcd fbn fbc fbo fbh fboo
        fbsct none limit offset
    ∧ exportLeadsFromCampaignParams (some "") fbve fbnve fbs fbcd fbcs fbsl
        fbn fbc fbo fbh fboo fbsct =
      exportLeadsFromCampaignParams none fbve fbnve fbs fbcd fbcs fbsl fbn fbc
        fbo fbh fboo fbsct
    ∧ exportLeadsFromCampaignParams search fbve fbnve (some []) fbcd fbcs fbsl
        fbn fbc fbo fbh fboo fbsct =
      exportLeadsFromCampaignParams search fbve fbnve none fbcd fbcs fbsl fbn
        fbc fbo fbh fboo fbsct
    ∧ exportLeadsFromCampaignParams search fbve fbnve fbs fbcd (some []) fbsl
        fbn fbc fbo fbh fboo fbsct =
      exportLeadsFromCampaignParams search fbve fbnve fbs fbcd none fbsl fbn
        fbc fbo fbh fboo fbsct
    ∧ exportLeadsFromCampaignParams search fbve fbnve fbs fbcd fbcs (some [])
        fbn fbc fbo fbh fboo fbsct =
      exportLeadsFromCampaignParams search fbve fbnve fbs fbcd fbcs none fbn
        fbc fbo fbh fboo fbsct
    ∧ exportLeadsFromCampaignParams search fbve fbnve fbs fbcd fbcs fbsl fbn
        fbc fbo fbh fboo (some 0) =
      exportLeadsFromCampaignParams search fbve fbnve fbs fbcd fbcs fbsl fbn
        fbc fbo fbh fboo none
    ∧ (getLeadsFromCampaignParams (some "") none none (some []) none (some [])
        none none none none none (some 0) (some []) limit offset).map Prod.fst =
      ["limit", "offset"] :=
  ⟨rfl, rfl, rfl, rfl, rfl, rfl, rfl, rfl, rfl, rfl, rfl, rfl, rfl, rfl, rfl⟩

end Multilead
